import Mathlib

/-!
Verification development for the Cognifloe backend.

We give a shallow embedding in Lean of the arithmetic and control flow of the
backend's request handlers and services, and prove the spec's testable
properties about it.  Machine reals are modelled by `ℚ`; Python `round(x, k)`
is modelled by round-half-up to `k` decimal places (Python uses
round-half-to-even, but every property proved here depends only on
monotonicity of rounding and on its fixed points at exact `k`-decimal values,
which the two conventions share, and no concrete input used below hits a tie).
-/

namespace Cognifloe

/-- Model of Python `round(q, k)`: round to `k` decimal places. -/
def roundTo (k : ℕ) (q : ℚ) : ℚ := (round (q * (10 : ℚ) ^ k) : ℤ) / (10 : ℚ) ^ k

/-! ### Anomaly detector (`src/backend/services/ml_service.py`, `AnomalyDetector`)

Baseline constants: `avg_completion_time = 3.5`, `std_completion_time = 1.2`,
`avg_agent_count = 2.5`, `std_agent_count = 0.8`.  The `details` strings of the
anomaly entries are presentational f-strings and are not modelled; the fields
the spec speaks about (`type`, `severity`, the score contributions, the overall
score and top-level severity) are modelled exactly. -/

structure AnomalyInput where
  completion_time : ℚ
  agent_count : ℚ
  success_rate : ℚ
  error_count : ℚ
deriving Repr, DecidableEq

structure AnomalyEntry where
  type : String
  severity : String
  baseline : ℚ
deriving Repr, DecidableEq

def time_z_score (i : AnomalyInput) : ℚ :=
  |(i.completion_time - 7/2) / (6/5)|

def agent_z_score (i : AnomalyInput) : ℚ :=
  |(i.agent_count - 5/2) / (4/5)|

/-- Entry appended for the completion-time dimension (`severity` escalates from
"Medium" to "High" at the 3σ threshold). -/
def timeEntry (i : AnomalyInput) : AnomalyEntry :=
  { type := "Abnormal Completion Time"
  , severity := if time_z_score i > 3 then "High" else "Medium"
  , baseline := 7/2 }

/-- Entry appended for the agent-count dimension (`severity` is the constant
"Low", regardless of the z-score). -/
def agentEntry : AnomalyEntry :=
  { type := "Unusual Agent Count", severity := "Low", baseline := 5/2 }

/-- Entry appended for the success-rate dimension. -/
def successEntry (i : AnomalyInput) : AnomalyEntry :=
  { type := "Low Success Rate"
  , severity := if i.success_rate < 1/2 then "Critical" else "High"
  , baseline := 23/25 }

/-- Entry appended for the error-count dimension. -/
def errorEntry (i : AnomalyInput) : AnomalyEntry :=
  { type := "High Error Count"
  , severity := if i.error_count > 10 then "Critical" else "High"
  , baseline := 0 }

/-- The list of anomaly entries appended by `detect_anomalies`, in code order. -/
def anomaliesList (i : AnomalyInput) : List AnomalyEntry :=
  (if time_z_score i > 2 then [timeEntry i] else [])
  ++ (if agent_z_score i > 2 then [agentEntry] else [])
  ++ (if i.success_rate < 7/10 then [successEntry i] else [])
  ++ (if i.error_count > 5 then [errorEntry i] else [])

/-- The list of per-dimension score contributions appended by `detect_anomalies`,
in code order. -/
def anomalyScoresList (i : AnomalyInput) : List ℚ :=
  (if time_z_score i > 2 then [min (time_z_score i / 3) 1] else [])
  ++ (if agent_z_score i > 2 then [min (agent_z_score i / 4) (1/2)] else [])
  ++ (if i.success_rate < 7/10 then [1 - i.success_rate] else [])
  ++ (if i.error_count > 5 then [min (i.error_count / 15) 1] else [])

/-- `overall_score = np.mean(anomaly_scores) if anomaly_scores else 0.0`. -/
def overallScore (i : AnomalyInput) : ℚ :=
  if anomalyScoresList i = [] then 0
  else (anomalyScoresList i).sum / (anomalyScoresList i).length

/-- Top-level severity thresholds applied to the overall score. -/
def severityOfScore (s : ℚ) : String :=
  if s > 7/10 then "Critical"
  else if s > 2/5 then "High"
  else if s > 1/5 then "Medium"
  else "Low"

structure AnomalyResult where
  is_anomaly : Bool
  anomaly_score : ℚ
  anomalies_detected : List AnomalyEntry
  severity : String
deriving Repr, DecidableEq

/-- `AnomalyDetector.detect_anomalies` (timestamp and recommendation fields,
which the claims do not concern, are not modelled). -/
def detect_anomalies (i : AnomalyInput) : AnomalyResult :=
  { is_anomaly := decide ((anomaliesList i).length > 0)
  , anomaly_score := roundTo 3 (overallScore i)
  , anomalies_detected := anomaliesList i
  , severity := severityOfScore (overallScore i) }

/-! ### Predictive model (`src/backend/services/ml_service.py`, `PredictiveModel`)

The trained scikit-learn ensemble members are external model artifacts loaded
from disk; their outputs are universally quantified rationals (`rf_pred`,
`gb_pred`, `proba`).  The heuristic fallback path is embedded in full.  The
environment modelled has no `OPENAI_API_KEY`, so `_calculate_complexity`
always takes its deterministic keyword-heuristic branch. -/

/-- Python `pat in s` on strings: `startsWithChars pat s` is prefix testing. -/
def startsWithChars : List Char → List Char → Bool
  | [], _ => true
  | _ :: _, [] => false
  | a :: as, b :: bs => a == b && startsWithChars as bs

def hasSubChars (pat : List Char) : List Char → Bool
  | [] => startsWithChars pat []
  | c :: rest => startsWithChars pat (c :: rest) || hasSubChars pat rest

/-- `len(s.split())`: count maximal non-whitespace runs.  The flag tracks
whether the previous character was inside a word. -/
def wordCountAux : Bool → List Char → ℕ
  | _, [] => 0
  | inWord, c :: rest =>
    if c.isWhitespace then wordCountAux false rest
    else (if inWord then 0 else 1) + wordCountAux true rest

def wordCount (s : String) : ℕ := wordCountAux false s.data

def complexity_keywords : List String :=
  ["complex", "multiple", "integration", "advanced", "critical"]

/-- `sum(1 for word in complexity_keywords if word in description.lower())`. -/
def keywordCount (description : String) : ℕ :=
  (complexity_keywords.filter
    (fun k => hasSubChars k.data (description.data.map Char.toLower))).length

/-- `_calculate_complexity` (deterministic branch, `use_gpt` disabled or no API key). -/
def calculateComplexity (description : String) (step_count : ℕ) : ℚ :=
  let base_complexity := min ((wordCount description : ℚ) / 50) 1
  let keyword_bonus := (keywordCount description : ℚ) * (1/10)
  let step_penalty := min ((step_count : ℚ) / 20) (1/2)
  min (base_complexity + keyword_bonus + step_penalty) 1

structure TimePrediction where
  predicted_hours : ℚ
  range_min : ℚ
  range_max : ℚ
  confidence : ℚ
deriving Repr, DecidableEq

/-- Heuristic-fallback branch of `predict_completion_time`
(the weighted sum with weights 0.45/0.25/0.20/0.10; note: no `max(0.5, ·)`
clamp is applied to `predicted_hours` on this branch, only to the range min). -/
def predict_completion_time_heuristic (description : String)
    (agent_count step_count : ℕ) (historical_avg : ℚ) : TimePrediction :=
  let complexity := calculateComplexity description step_count
  let ph := (complexity * 10) * (9/20) + ((agent_count : ℚ) * (1/2)) * (1/4)
            + historical_avg * (1/5) + ((step_count : ℚ) * (3/10)) * (1/10)
  let uncertainty := (3/20) * ph
  let conf := 3/4 + (min historical_avg 10) / 40
  { predicted_hours := roundTo 2 ph
  , range_min := roundTo 2 (max (ph - uncertainty) (1/2))
  , range_max := roundTo 2 (ph + uncertainty)
  , confidence := roundTo 3 conf }

/-- Trained-model branch of `predict_completion_time`:
`predicted_hours = max(0.5, 0.6 * rf_pred + 0.4 * gb_pred)`. -/
def predict_completion_time_trained (rf_pred gb_pred historical_avg : ℚ) : TimePrediction :=
  let ph := max (1/2) ((3/5) * rf_pred + (2/5) * gb_pred)
  let uncertainty := (3/25) * ph
  let conf := 41/50 + (min historical_avg 10) / 50
  { predicted_hours := roundTo 2 ph
  , range_min := roundTo 2 (max (ph - uncertainty) (1/2))
  , range_max := roundTo 2 (ph + uncertainty)
  , confidence := roundTo 3 (min conf (19/20)) }

/-- `float(np.mean(confidence_scores)) if confidence_scores else 0.8`. -/
def avgConfidence (scores : List ℚ) : ℚ :=
  if scores = [] then 4/5 else scores.sum / scores.length

/-- `max(0.1, min(p, 0.99))`, the clip applied to both success-probability branches. -/
def clampProb (p : ℚ) : ℚ := max (1/10) (min p (99/100))

/-- Trained-classifier branch of `predict_success_probability`:
`success_prob = max(0.1, min(proba, 0.99))`, rounded to 3 places. -/
def predict_success_probability_trained (proba : ℚ) : ℚ :=
  roundTo 3 (clampProb proba)

/-- Heuristic-fallback branch of `predict_success_probability`
(weights 0.40/0.20/0.25/0.15 over confidence, age factor, agent performance,
inverse complexity; clipped to [0.1, 0.99], rounded to 3 places). -/
def predict_success_probability_heuristic (description : String) (step_count : ℕ)
    (confidence_scores : List ℚ) (workflow_age_days : ℕ) (agent_perf : ℚ) : ℚ :=
  let avg_conf := avgConfidence confidence_scores
  let complexity := calculateComplexity description step_count
  let age_factor := min ((workflow_age_days : ℚ) / 90) 1
  let sp := avg_conf * (2/5) + age_factor * (1/5) + agent_perf * (1/4)
            + (1 - complexity) * (3/20)
  roundTo 3 (clampProb sp)

/-! ### Auth (`src/backend/api/auth.py`)

`bcrypt` and UTF-8 byte encoding are external primitives; they enter as
function parameters.  A bcrypt hash string embeds its salt, so it is modelled
as a (salt, digest) pair: `bcrypt.hashpw(pw, salt)` stores the salt,
`bcrypt.checkpw(pw, h)` recomputes the digest with the stored salt.  Both
`hash_password` and `verify_password` truncate the encoded password to its
first 72 bytes, exactly as `password.encode('utf-8')[:72]` does. -/

def SECRET_KEY : String := "your-secret-key-change-in-production"

def ACCESS_TOKEN_EXPIRE_MINUTES : ℕ := 60 * 24

structure BcryptHash where
  salt : List ℕ
  digest : List ℕ
deriving Repr, DecidableEq

def hash_password (utf8 : String → List ℕ) (bcryptRaw : List ℕ → List ℕ → List ℕ)
    (salt : List ℕ) (password : String) : BcryptHash :=
  { salt := salt, digest := bcryptRaw ((utf8 password).take 72) salt }

def verify_password (utf8 : String → List ℕ) (bcryptRaw : List ℕ → List ℕ → List ℕ)
    (plain_password : String) (hashed : BcryptHash) : Bool :=
  decide (hashed.digest = bcryptRaw ((utf8 plain_password).take 72) hashed.salt)

structure TokenPayload where
  sub : String
  email : String
  exp : ℕ
deriving Repr, DecidableEq

/-- A signed JWT: the payload together with the secret it was signed with.
`jwt.decode` with the right secret recovers exactly the payload. -/
structure Jwt where
  payload : TokenPayload
  signedWith : String
deriving Repr, DecidableEq

/-- `create_access_token(data={"sub": sub, "email": email}, expires_delta=timedelta(minutes=m))`;
the expiry is `now + m` minutes (time in seconds). -/
def create_access_token (sub email : String) (now expires_minutes : ℕ) : Jwt :=
  { payload := { sub := sub, email := email, exp := now + expires_minutes * 60 }
  , signedWith := SECRET_KEY }

def jwt_decode (secret : String) (t : Jwt) : Option TokenPayload :=
  if t.signedWith = secret then some t.payload else none

structure UserRow where
  id : String
  email : String
  password_hash : BcryptHash
deriving Repr, DecidableEq

inductive SignupOutcome where
  | rejected (statusCode : ℕ) (detail : String)
  | created (token : Jwt)
deriving Repr, DecidableEq

structure SignupResult where
  outcome : SignupOutcome
  inserted : List UserRow
deriving Repr, DecidableEq

/-- The `signup` handler: the users table is the list `db`; `inserted` records
the insert calls issued.  Order of checks follows the code: duplicate email
first, then password length. -/
def signup (utf8 : String → List ℕ) (bcryptRaw : List ℕ → List ℕ → List ℕ)
    (db : List UserRow) (salt : List ℕ) (newId : String) (now : ℕ)
    (email password : String) : SignupResult :=
  if (db.filter (fun u => u.email == email)) ≠ [] then
    { outcome := .rejected 400 "Email already registered", inserted := [] }
  else if password.length < 8 then
    { outcome := .rejected 400 "Password must be at least 8 characters", inserted := [] }
  else
    let row : UserRow :=
      { id := newId, email := email
      , password_hash := hash_password utf8 bcryptRaw salt password }
    { outcome := .created (create_access_token newId email now ACCESS_TOKEN_EXPIRE_MINUTES)
    , inserted := [row] }

inductive LoginOutcome where
  | unauthorized
  | token (t : Jwt)
deriving Repr, DecidableEq

/-- The `login` handler: select users by email (the code uses `result.data[0]`,
the first match), 401 when none or when the password does not verify. -/
def login (utf8 : String → List ℕ) (bcryptRaw : List ℕ → List ℕ → List ℕ)
    (db : List UserRow) (now : ℕ) (email password : String) : LoginOutcome :=
  match db.filter (fun u => u.email == email) with
  | [] => .unauthorized
  | u :: _ =>
    if verify_password utf8 bcryptRaw password u.password_hash then
      .token (create_access_token u.id u.email now ACCESS_TOKEN_EXPIRE_MINUTES)
    else .unauthorized

/-! ### Workflow creation (`src/backend/api/workflow_api.py`,
`src/backend/services/workflow_service.py`)

The handler inserts one workflow row, then one agent row per request agent
(via `add_agent`) and one step row per request step (via
`add_workflow_steps`, which numbers them `step_order = i + 1` by
`enumerate`).  We model the rows each insert call produces. -/

structure StepIn where
  description : Option String
  actor : Option String
deriving Repr, DecidableEq

structure AgentIn where
  role : Option String
  description : Option String
  status : Option String
  confidence_score : Option ℚ
deriving Repr, DecidableEq

structure AgentRow where
  workflow_id : String
  role : String
  description : Option String
  status : String
  confidence_score : ℚ
deriving Repr, DecidableEq

structure StepRow where
  workflow_id : String
  step_order : ℕ
  description : String
  actor : Option String
deriving Repr, DecidableEq

/-- Agent rows inserted by the `create_workflow` handler loop
(`agent_data.get("role", "")`, `.get("status", "Idle")`,
`.get("confidence_score", 0.95)`). -/
def createdAgents (wid : String) (agents : List AgentIn) : List AgentRow :=
  agents.map fun a =>
    { workflow_id := wid
    , role := a.role.getD ""
    , description := a.description
    , status := a.status.getD "Idle"
    , confidence_score := a.confidence_score.getD (19/20) }

/-- `add_workflow_steps`: `for i, step in enumerate(steps)` builds rows with
`step_order = i + 1`. -/
def add_workflow_steps_from (wid : String) : ℕ → List StepIn → List StepRow
  | _, [] => []
  | i, s :: rest =>
    { workflow_id := wid, step_order := i + 1
    , description := s.description.getD "", actor := s.actor }
      :: add_workflow_steps_from wid (i + 1) rest

def add_workflow_steps (wid : String) (steps : List StepIn) : List StepRow :=
  add_workflow_steps_from wid 0 steps

/-- Step rows inserted by `create_workflow` (the handler guards with
`if workflow.steps:`, so the empty list issues no insert call). -/
def createdSteps (wid : String) (steps : List StepIn) : List StepRow :=
  if steps = [] then [] else add_workflow_steps wid steps

/-! ### Telemetry metrics (`src/backend/api/metrics_api.py`)

The payload dictionaries are modelled as records.  `generate_metrics_data`
contains a `generatedAt` key with the call-time timestamp; the empty payload
from `generate_empty_metrics` has no such key, modelled as `none`.
Python's `random.Random(seed)` is modelled by an abstract draw stream
`randU : ℕ → ℕ → ℚ` (seed, draw index ↦ a value in `[0, 1)`); draws are
numbered in the order the code makes them.  Decimal string formatting
(`f"{x:,}"`, `f"{x:.2f}"`) is abstracted by the parameters `fmtInt`, `fmtQ2`. -/

structure QuickStat where
  label : String
  value : String
  change : String
  trend : String
  description : String
deriving Repr, DecidableEq

structure RoiMetrics where
  timeSaved : String
  costSaved : String
  efficiency : String
  errorReduction : String
deriving Repr, DecidableEq

structure AgentPerf where
  name : String
  success : ℚ
  latency : ℤ
  executions : ℤ
  status : String
deriving Repr, DecidableEq

structure CostItem where
  label : String
  value : ℕ
  amount : ℤ
  color : String
deriving Repr, DecidableEq

structure WaitItem where
  label : String
  value : String
  percent : ℤ
  color : String
deriving Repr, DecidableEq

structure TelemetryPayload where
  timeRange : String
  generatedAt : Option String
  quickStats : List QuickStat
  roiMetrics : RoiMetrics
  agentPerformance : List AgentPerf
  costBreakdown : List CostItem
  totalCost : ℤ
  executionVolume : List ℤ
  waitDistribution : List WaitItem
deriving Repr, DecidableEq

/-- `generate_empty_metrics`: the all-zero payload. -/
def generate_empty_metrics (time_range : String) : TelemetryPayload :=
  { timeRange := time_range
  , generatedAt := none
  , quickStats :=
      [ { label := "Total Cost", value := "$0", change := "--", trend := "neutral"
        , description := "No workflows yet" }
      , { label := "Avg Latency", value := "0ms", change := "--", trend := "neutral"
        , description := "No data" }
      , { label := "Throughput", value := "0 rpm", change := "--", trend := "neutral"
        , description := "No requests" }
      , { label := "Error Rate", value := "0%", change := "--", trend := "neutral"
        , description := "No errors" } ]
  , roiMetrics :=
      { timeSaved := "0 hours", costSaved := "$0", efficiency := "0%"
      , errorReduction := "0%" }
  , agentPerformance := []
  , costBreakdown := []
  , totalCost := 0
  , executionVolume := List.replicate 12 0
  , waitDistribution := [] }

/-- `get_seed`: `int(md5(f"{user_id}-{today}-{time_range}").hexdigest()[:8], 16)`;
the first 8 hex digits are a 32-bit value, modelled as `md5 s % 2^32` for an
abstract digest function `md5`. -/
def get_seed (md5 : String → ℕ) (user_id date time_range : String) : ℕ :=
  md5 (user_id ++ "-" ++ date ++ "-" ++ time_range) % 2 ^ 32

def scaleOf (time_range : String) : ℕ :=
  if time_range = "24h" then 1
  else if time_range = "7d" then 7
  else if time_range = "30d" then 30
  else if time_range = "90d" then 90
  else 1

/-- `rng.uniform(lo, hi)` at draw index `k`. -/
def unif (randU : ℕ → ℕ → ℚ) (seed k : ℕ) (lo hi : ℚ) : ℚ :=
  lo + randU seed k * (hi - lo)

/-- `rng.randint(lo, hi)` at draw index `k`. -/
def randint (randU : ℕ → ℕ → ℚ) (seed k : ℕ) (lo hi : ℤ) : ℤ :=
  lo + Int.floor (randU seed k * ((hi : ℚ) - (lo : ℚ) + 1))

/-- Python one-argument `round(x)` (to an integer). -/
def pyRound (q : ℚ) : ℤ := round q

/-- Python `int(x)`: truncation toward zero. -/
def pyInt (q : ℚ) : ℤ := if 0 ≤ q then Int.floor q else -Int.floor (-q)

/-- `generate_metrics_data`: every numeric quantity is a function of the seed
(derived from user id, calendar date and time range) and the time range alone;
only `generatedAt` depends on the wall-clock timestamp `now`. -/
def generate_metrics_data (md5 : String → ℕ) (randU : ℕ → ℕ → ℚ)
    (fmtInt : ℤ → String) (fmtQ2 : ℚ → String)
    (user_id time_range date now : String) : TelemetryPayload :=
  let seed := get_seed md5 user_id date time_range
  let scale : ℚ := (scaleOf time_range : ℚ)
  let base_cost := unif randU seed 0 35 55
  let base_latency := unif randU seed 1 180 280
  let base_throughput := unif randU seed 2 70 100
  let base_error_rate := unif randU seed 3 (1/200) (1/50)
  let total_cost := roundTo 0 (base_cost * scale)
  let latency_improvement := min (3/20) (scale * (1/500))
  let avg_latency := roundTo 0 (base_latency * (1 - latency_improvement))
  let throughput_boost := 1 + min (1/5) (scale * (3/1000))
  let throughput := roundTo 0 (base_throughput * throughput_boost)
  let error_improvement := min (1/2) (scale * (1/125))
  let error_rate := roundTo 4 (base_error_rate * (1 - error_improvement))
  let cost_change := randint randU seed 4 (-20) (-5)
  let latency_change := randint randU seed 5 (-15) (-3)
  let throughput_change := randint randU seed 6 5 25
  let error_change := randint randU seed 7 (-60) (-30)
  let hours_saved := roundTo 0 (unif randU seed 8 4 8 * scale)
  let cost_saved := roundTo 0 (hours_saved * unif randU seed 9 80 150)
  let efficiency_gain := roundTo 0 (200 + unif randU seed 10 50 200 * (1 + scale * (1/100)))
  let error_reduction := roundTo 0 (85 + unif randU seed 11 5 12 * min (scale * (1/10)) 1)
  let agents : List AgentPerf :=
    [ { name := "Email Processor"
      , success := roundTo 1 (96 + unif randU seed 12 0 (7/2))
      , latency := pyRound (30 + unif randU seed 13 0 25)
      , executions := pyRound (((5000 + randint randU seed 14 0 3000 : ℤ) : ℚ) * scale)
      , status := if randU seed 15 > 3/10 then "optimal" else "good" }
    , { name := "Data Analyzer"
      , success := roundTo 1 (93 + unif randU seed 16 0 4)
      , latency := pyRound (80 + unif randU seed 17 0 60)
      , executions := pyRound (((3000 + randint randU seed 18 0 2000 : ℤ) : ℚ) * scale)
      , status := if randU seed 19 > 2/5 then "good" else "moderate" }
    , { name := "Response Generator"
      , success := roundTo 1 (97 + unif randU seed 20 0 (5/2))
      , latency := pyRound (25 + unif randU seed 21 0 20)
      , executions := pyRound (((4000 + randint randU seed 22 0 2500 : ℤ) : ℚ) * scale)
      , status := "optimal" }
    , { name := "Document Parser"
      , success := roundTo 1 (90 + unif randU seed 23 0 5)
      , latency := pyRound (120 + unif randU seed 24 0 80)
      , executions := pyRound (((1500 + randint randU seed 25 0 1500 : ℤ) : ℚ) * scale)
      , status := if randU seed 26 > 1/2 then "moderate" else "good" } ]
  let cost_breakdown : List CostItem :=
    [ { label := "AI Model Inference", value := 45
      , amount := pyRound (total_cost * (45/100)), color := "sunset" }
    , { label := "Data Processing", value := 25
      , amount := pyRound (total_cost * (25/100)), color := "forest" }
    , { label := "Storage", value := 15
      , amount := pyRound (total_cost * (15/100)), color := "coral" }
    , { label := "Network", value := 10
      , amount := pyRound (total_cost * (10/100)), color := "amber" }
    , { label := "Other", value := 5
      , amount := pyRound (total_cost * (5/100)), color := "muted" } ]
  let data_points : List ℤ :=
    (List.range 12).map fun j =>
      pyRound (40 + unif randU seed (27 + j) 0 60 * (1 + scale * (1/200)))
  let wt_queue := pyRound (15 + unif randU seed 39 0 15)
  let wt_processing := pyRound (130 + unif randU seed 40 0 50)
  let wt_response := pyRound (25 + unif randU seed 41 0 20)
  let total_wait := wt_queue + wt_processing + wt_response
  let wait_distribution : List WaitItem :=
    [ { label := "Queue Time", value := fmtInt wt_queue ++ "ms"
      , percent := pyRound ((wt_queue : ℚ) / (total_wait : ℚ) * 100), color := "sunset" }
    , { label := "Processing", value := fmtInt wt_processing ++ "ms"
      , percent := pyRound ((wt_processing : ℚ) / (total_wait : ℚ) * 100), color := "forest" }
    , { label := "Response", value := fmtInt wt_response ++ "ms"
      , percent := pyRound ((wt_response : ℚ) / (total_wait : ℚ) * 100), color := "coral" } ]
  { timeRange := time_range
  , generatedAt := some now
  , quickStats :=
      [ { label := "Total Cost", value := "$" ++ fmtInt (pyInt total_cost)
        , change := fmtInt cost_change ++ "%", trend := "down"
        , description := "Total infrastructure cost for " ++ time_range }
      , { label := "Avg Latency", value := fmtInt (pyInt avg_latency) ++ "ms"
        , change := fmtInt latency_change ++ "%", trend := "down"
        , description := "Average response time per request" }
      , { label := "Throughput", value := fmtInt (pyInt throughput) ++ " rpm"
        , change := "+" ++ fmtInt throughput_change ++ "%", trend := "up"
        , description := "Requests processed per minute" }
      , { label := "Error Rate", value := fmtQ2 error_rate ++ "%"
        , change := fmtInt error_change ++ "%", trend := "down"
        , description := "Failed requests percentage" } ]
  , roiMetrics :=
      { timeSaved := fmtInt (pyInt hours_saved) ++ " hours"
      , costSaved := "$" ++ fmtInt (pyInt cost_saved)
      , efficiency := fmtInt (pyInt efficiency_gain) ++ "%"
      , errorReduction := fmtInt (pyInt error_reduction) ++ "%" }
  , agentPerformance := agents
  , costBreakdown := cost_breakdown
  , totalCost := pyInt total_cost
  , executionVolume := data_points
  , waitDistribution := wait_distribution }

structure WorkflowRec where
  id : String
deriving Repr, DecidableEq

structure RealMetrics where
  totalExecutions : ℕ
  payload : TelemetryPayload
deriving Repr, DecidableEq

/-- The `get_telemetry_metrics` handler: zero workflows short-circuits to the
empty payload; otherwise real aggregated metrics when execution logs exist,
else the synthetic generator output. -/
def get_telemetry_metrics (workflows : List WorkflowRec)
    (realMetrics : Option RealMetrics) (generated : TelemetryPayload)
    (time_range : String) : TelemetryPayload :=
  if workflows.isEmpty then generate_empty_metrics time_range
  else
    match realMetrics with
    | some m => if m.totalExecutions > 0 then m.payload else generated
    | none => generated

/-- Forgetting the only timestamp field of a telemetry payload. -/
def eraseGeneratedAt (p : TelemetryPayload) : TelemetryPayload :=
  { p with generatedAt := none }

/-! ### Helper lemmas -/

lemma round_mono {a b : ℚ} (h : a ≤ b) : round a ≤ round b := by
  rw [round_eq, round_eq]
  exact Int.floor_mono (by linarith)

lemma roundTo_mono (k : ℕ) {a b : ℚ} (h : a ≤ b) : roundTo k a ≤ roundTo k b := by
  unfold roundTo
  have h10 : (0 : ℚ) < (10 : ℚ) ^ k := by positivity
  have hm : a * (10 : ℚ) ^ k ≤ b * (10 : ℚ) ^ k :=
    mul_le_mul_of_nonneg_right h (le_of_lt h10)
  have hr : (round (a * (10 : ℚ) ^ k) : ℤ) ≤ round (b * (10 : ℚ) ^ k) := round_mono hm
  have : ((round (a * (10 : ℚ) ^ k) : ℤ) : ℚ) ≤ ((round (b * (10 : ℚ) ^ k) : ℤ) : ℚ) := by
    exact_mod_cast hr
  exact div_le_div_of_nonneg_right this h10.le |>.trans_eq rfl

/-- Values that are exact `k`-decimal fractions are fixed by `roundTo k`. -/
lemma roundTo_fix {k : ℕ} {q : ℚ} {m : ℤ} (h : q * (10 : ℚ) ^ k = (m : ℚ)) :
    roundTo k q = q := by
  have h10 : ((10 : ℚ) ^ k) ≠ 0 := by positivity
  unfold roundTo
  rw [h, round_intCast, div_eq_iff h10]
  exact h.symm

lemma le_roundTo_of_le {k : ℕ} {a q : ℚ} (ha : roundTo k a = a) (h : a ≤ q) :
    a ≤ roundTo k q :=
  ha ▸ roundTo_mono k h

lemma roundTo_le_of_le {k : ℕ} {a q : ℚ} (ha : roundTo k a = a) (h : q ≤ a) :
    roundTo k q ≤ a :=
  ha ▸ roundTo_mono k h

/-- Bounds of a list mean: if every element is within `[lo, hi]` then so is the mean. -/
lemma list_mean_le {l : List ℚ} {hi : ℚ} (hne : l ≠ []) (h : ∀ x ∈ l, x ≤ hi) :
    l.sum / l.length ≤ hi := by
  have hlen : (0 : ℚ) < l.length := by
    have : 0 < l.length := List.length_pos.mpr hne
    exact_mod_cast this
  rw [div_le_iff₀ hlen]
  induction l with
  | nil => simp at hne
  | cons a t ih =>
    simp only [List.sum_cons, List.length_cons]
    by_cases ht : t = []
    · subst ht
      simp only [List.sum_nil, List.length_nil, add_zero, Nat.cast_ofNat, Nat.cast_zero]
      have := h a (by simp)
      push_cast
      linarith
    · have hht : ∀ x ∈ t, x ≤ hi := fun x hx => h x (by simp [hx])
      have hlt : (0 : ℚ) < t.length := by
        have : 0 < t.length := List.length_pos.mpr ht
        exact_mod_cast this
      have := ih ht hht hlt
      have ha := h a (by simp)
      push_cast
      push_cast at this
      nlinarith [this, ha, hlt]

lemma list_mean_nonneg {l : List ℚ} (h : ∀ x ∈ l, 0 ≤ x) :
    0 ≤ l.sum / l.length := by
  apply div_nonneg
  · exact List.sum_nonneg h
  · positivity

/-! ### Claim theorems -/

/-- Structural description of the step rows produced by the `enumerate` loop of
`add_workflow_steps`, starting from index `i`. -/
lemma add_workflow_steps_from_spec (wid : String) (i : ℕ) (steps : List StepIn) :
    (add_workflow_steps_from wid i steps).length = steps.length ∧
    (add_workflow_steps_from wid i steps).map StepRow.workflow_id
      = List.replicate steps.length wid ∧
    (add_workflow_steps_from wid i steps).map StepRow.step_order
      = List.range' (i + 1) steps.length ∧
    (add_workflow_steps_from wid i steps).map StepRow.description
      = steps.map (fun s => s.description.getD "") := by
  induction steps generalizing i with
  | nil => simp [add_workflow_steps_from]
  | cons s rest ih =>
    obtain ⟨h1, h2, h3, h4⟩ := ih (i + 1)
    refine ⟨?_, ?_, ?_, ?_⟩ <;>
      simp [add_workflow_steps_from, h1, h2, h3, h4, List.replicate_succ, List.range']

/-- Claim C5: for every create-workflow request with N agents and M steps, the
handler issues inserts producing exactly N agent rows and M step rows, each
carrying the new workflow's id, with steps numbered `step_order = 1..M` in
request order. -/
theorem C5_create_workflow_inserts (wid : String)
    (agents : List AgentIn) (steps : List StepIn) :
    (createdAgents wid agents).length = agents.length ∧
    (createdSteps wid steps).length = steps.length ∧
    (createdAgents wid agents).map AgentRow.workflow_id
      = List.replicate agents.length wid ∧
    (createdSteps wid steps).map StepRow.workflow_id
      = List.replicate steps.length wid ∧
    (createdSteps wid steps).map StepRow.step_order = List.range' 1 steps.length ∧
    (createdSteps wid steps).map StepRow.description
      = steps.map (fun s => s.description.getD "") := by
  have haglen : (createdAgents wid agents).length = agents.length := by
    simp [createdAgents]
  have hagwid : (createdAgents wid agents).map AgentRow.workflow_id
      = List.replicate agents.length wid := by
    induction agents with
    | nil => simp [createdAgents]
    | cons a rest ih => simpa [createdAgents, List.replicate_succ] using ih
  by_cases hs : steps = []
  · subst hs
    exact ⟨haglen, by simp [createdSteps], hagwid, by simp [createdSteps],
      by simp [createdSteps, List.range'], by simp [createdSteps]⟩
  · obtain ⟨h1, h2, h3, h4⟩ := add_workflow_steps_from_spec wid 0 steps
    refine ⟨haglen, ?_, hagwid, ?_, ?_, ?_⟩ <;>
      simp [createdSteps, add_workflow_steps, hs, h1, h2, h3, h4]

/-- Claim C7: with an empty workflow list the telemetry endpoint returns the
all-zero payload, independently of the execution-log aggregate and of the
synthetic generator output. -/
theorem C7_empty_workflows_zero_payload (realMetrics : Option RealMetrics)
    (generated : TelemetryPayload) (r : String) :
    get_telemetry_metrics [] realMetrics generated r = generate_empty_metrics r ∧
    (generate_empty_metrics r).totalCost = 0 ∧
    (generate_empty_metrics r).quickStats.map QuickStat.value
      = ["$0", "0ms", "0 rpm", "0%"] ∧
    (generate_empty_metrics r).roiMetrics
      = { timeSaved := "0 hours", costSaved := "$0"
        , efficiency := "0%", errorReduction := "0%" } ∧
    (generate_empty_metrics r).agentPerformance = [] ∧
    (generate_empty_metrics r).costBreakdown = [] ∧
    (generate_empty_metrics r).waitDistribution = [] ∧
    (generate_empty_metrics r).executionVolume = List.replicate 12 0 :=
  ⟨rfl, rfl, rfl, rfl, rfl, rfl, rfl, rfl⟩

/-- Claim C9: the synthetic telemetry generator is deterministic per
(user, calendar day, time range): two calls with the same user id, date and
time range agree on every field except `generatedAt`, for every digest
function, draw stream and formatter, because all draws come from the seed
computed by `get_seed` from the user-id/date/range string. -/
theorem C9_generator_deterministic (md5 : String → ℕ) (randU : ℕ → ℕ → ℚ)
    (fmtInt : ℤ → String) (fmtQ2 : ℚ → String)
    (user_id time_range date now₁ now₂ : String) :
    eraseGeneratedAt (generate_metrics_data md5 randU fmtInt fmtQ2 user_id time_range date now₁)
      = eraseGeneratedAt (generate_metrics_data md5 randU fmtInt fmtQ2 user_id time_range date now₂) ∧
    (generate_metrics_data md5 randU fmtInt fmtQ2 user_id time_range date now₁).generatedAt
      = some now₁ :=
  ⟨rfl, rfl⟩

/-- Claim C10: password hashing and verification depend only on the first 72
bytes of the encoded password: if two passwords agree on those bytes, each
verifies against a hash produced from the other, for every salt and every
byte-level bcrypt core. -/
theorem C10_bcrypt_72_byte_truncation (utf8 : String → List ℕ)
    (bcryptRaw : List ℕ → List ℕ → List ℕ) (salt : List ℕ) (p₁ p₂ : String)
    (h : (utf8 p₁).take 72 = (utf8 p₂).take 72) :
    verify_password utf8 bcryptRaw p₁ (hash_password utf8 bcryptRaw salt p₂) = true ∧
    verify_password utf8 bcryptRaw p₂ (hash_password utf8 bcryptRaw salt p₁) = true := by
  constructor <;> simp [verify_password, hash_password, h]

/-- Witness for C10 at concrete data: an 80-character password and a
74-character password sharing their first 72 bytes hash-verify both ways. -/
theorem C10_bcrypt_72_byte_truncation_witness :
    verify_password (fun s => s.data.map Char.toNat) (fun p s => p ++ s)
        (String.mk (List.replicate 80 'a'))
        (hash_password (fun s => s.data.map Char.toNat) (fun p s => p ++ s) [1, 2]
          (String.mk (List.replicate 72 'a' ++ ['b', 'b']))) = true ∧
    verify_password (fun s => s.data.map Char.toNat) (fun p s => p ++ s)
        (String.mk (List.replicate 72 'a' ++ ['b', 'b']))
        (hash_password (fun s => s.data.map Char.toNat) (fun p s => p ++ s) [1, 2]
          (String.mk (List.replicate 80 'a'))) = true :=
  C10_bcrypt_72_byte_truncation (fun s => s.data.map Char.toNat) (fun p s => p ++ s)
    [1, 2] (String.mk (List.replicate 80 'a'))
    (String.mk (List.replicate 72 'a' ++ ['b', 'b'])) (by decide)

/-- Claim C3: the signup handler rejects with HTTP 400, issuing no user
insert, every request whose password has fewer than 8 characters and every
request whose email already exists; otherwise it inserts exactly the new user
row and returns the 24-hour access token. -/
theorem C3_signup_validation (utf8 : String → List ℕ)
    (bcryptRaw : List ℕ → List ℕ → List ℕ) (db : List UserRow) (salt : List ℕ)
    (newId : String) (now : ℕ) (email password : String) :
    ((password.length < 8 ∨ ∃ u ∈ db, u.email = email) →
      ∃ d, (signup utf8 bcryptRaw db salt newId now email password).outcome
          = .rejected 400 d ∧
        (signup utf8 bcryptRaw db salt newId now email password).inserted = []) ∧
    (8 ≤ password.length → (∀ u ∈ db, u.email ≠ email) →
      (signup utf8 bcryptRaw db salt newId now email password).outcome
        = .created (create_access_token newId email now ACCESS_TOKEN_EXPIRE_MINUTES) ∧
      (signup utf8 bcryptRaw db salt newId now email password).inserted
        = [{ id := newId, email := email
           , password_hash := hash_password utf8 bcryptRaw salt password }]) := by
  by_cases hdup : db.filter (fun u => u.email == email) = []
  · have hnodup : ∀ u ∈ db, u.email ≠ email := by
      intro u hu
      have := List.filter_eq_nil_iff.mp hdup u hu
      simpa using this
    constructor
    · rintro (hshort | ⟨u, hu, hmail⟩)
      · exact ⟨"Password must be at least 8 characters", by simp [signup, hdup, hshort]⟩
      · exact absurd hmail (hnodup u hu)
    · intro hlen _
      have hshort : ¬password.length < 8 := by omega
      simp [signup, hdup, hshort]
  · constructor
    · intro _
      exact ⟨"Email already registered", by simp [signup, hdup]⟩
    · intro _ hnodup
      exfalso
      apply hdup
      rw [List.filter_eq_nil_iff]
      intro u hu
      simpa using hnodup u hu

/-- Witness for C3: a 2-character password on an empty users table is rejected
with status 400 and no insert is issued. -/
theorem C3_signup_validation_witness :
    ∃ d, (signup (fun s => s.data.map Char.toNat) (fun p s => p ++ s) [] [] "u1" 0
        "a@b.c" "pw").outcome = .rejected 400 d ∧
      (signup (fun s => s.data.map Char.toNat) (fun p s => p ++ s) [] [] "u1" 0
        "a@b.c" "pw").inserted = [] :=
  (C3_signup_validation (fun s => s.data.map Char.toNat) (fun p s => p ++ s) [] []
    "u1" 0 "a@b.c" "pw").1 (Or.inl (by decide))

/-- Claim C4: login returns a token only when the supplied password verifies
against the stored bcrypt hash of the (first) user record with the given
email, 401 otherwise; and an issued token decodes under the server secret to
a payload whose `sub` is that user's id, with the fixed 24-hour expiry. -/
theorem C4_login_token (utf8 : String → List ℕ)
    (bcryptRaw : List ℕ → List ℕ → List ℕ) (db : List UserRow) (now : ℕ)
    (email password : String) :
    (∀ t, login utf8 bcryptRaw db now email password = .token t →
      ∃ u rest, db.filter (fun v => v.email == email) = u :: rest ∧
        verify_password utf8 bcryptRaw password u.password_hash = true ∧
        jwt_decode SECRET_KEY t
          = some { sub := u.id, email := u.email, exp := now + 24 * 60 * 60 }) ∧
    (∀ u rest, db.filter (fun v => v.email == email) = u :: rest →
      verify_password utf8 bcryptRaw password u.password_hash = false →
      login utf8 bcryptRaw db now email password = .unauthorized) ∧
    (db.filter (fun v => v.email == email) = [] →
      login utf8 bcryptRaw db now email password = .unauthorized) := by
  refine ⟨?_, ?_, ?_⟩
  · intro t ht
    unfold login at ht
    split at ht
    · exact absurd ht (by simp)
    · rename_i u rest heq
      split at ht
      · rename_i hverify
        refine ⟨u, rest, heq, hverify, ?_⟩
        have := ht
        simp only [LoginOutcome.token.injEq] at this
        subst this
        simp [jwt_decode, create_access_token, SECRET_KEY, ACCESS_TOKEN_EXPIRE_MINUTES]
      · exact absurd ht (by simp)
  · intro u rest heq hverify
    unfold login
    rw [heq]
    simp [hverify]
  · intro heq
    unfold login
    rw [heq]

/-- Witness for C4: a concrete single-user table where the password matches:
login issues a token that decodes to that user's id with a 24-hour expiry. -/
theorem C4_login_token_witness :
    ∃ (u : UserRow) (rest : List UserRow),
      ([({ id := "42", email := "a@b.c"
         , password_hash := hash_password (fun s => s.data.map Char.toNat)
             (fun p s => p ++ s) [7] "password123" } : UserRow)]).filter
          (fun v => v.email == "a@b.c") = u :: rest ∧
      verify_password (fun s => s.data.map Char.toNat) (fun p s => p ++ s)
        "password123" u.password_hash = true ∧
      jwt_decode SECRET_KEY
          (create_access_token "42" "a@b.c" 1000 ACCESS_TOKEN_EXPIRE_MINUTES)
        = some { sub := u.id, email := u.email, exp := 1000 + 24 * 60 * 60 } :=
  (C4_login_token (fun s => s.data.map Char.toNat) (fun p s => p ++ s)
    [{ id := "42", email := "a@b.c"
     , password_hash := hash_password (fun s => s.data.map Char.toNat)
         (fun p s => p ++ s) [7] "password123" }] 1000 "a@b.c" "password123").1
    (create_access_token "42" "a@b.c" 1000 ACCESS_TOKEN_EXPIRE_MINUTES)
    (by decide)

lemma mem_ite_singleton {α : Type} (c : Prop) [Decidable c] (v e : α) :
    e ∈ (if c then [v] else []) ↔ c ∧ e = v := by
  split_ifs with hc <;> simp [hc]

/-- Membership in the detector's anomaly list, dimension by dimension. -/
lemma mem_anomaliesList (i : AnomalyInput) (e : AnomalyEntry) :
    e ∈ anomaliesList i ↔
      (time_z_score i > 2 ∧ e = timeEntry i) ∨
      (agent_z_score i > 2 ∧ e = agentEntry) ∨
      (i.success_rate < 7/10 ∧ e = successEntry i) ∨
      (i.error_count > 5 ∧ e = errorEntry i) := by
  unfold anomaliesList
  simp only [List.mem_append, mem_ite_singleton, or_assoc]

/-- Claim C2 as stated is false: at completion time 3.5h, 2 agents, success
rate 0.49 and no errors, the success rate is below 0.5 but the returned
top-level `severity` field is "High", not "Critical" (the mean anomaly score
is 0.51, below the 0.7 "Critical" threshold). -/
theorem C2_counterexample :
    ((49 : ℚ)/100 < 1/2 ∧ (0 : ℚ) ≤ 49/100 ∧ (49 : ℚ)/100 ≤ 1) ∧
    (detect_anomalies ⟨7/2, 2, 49/100, 0⟩).is_anomaly = true ∧
    (detect_anomalies ⟨7/2, 2, 49/100, 0⟩).severity = "High" ∧
    (detect_anomalies ⟨7/2, 2, 49/100, 0⟩).severity ≠ "Critical" := by
  have htz : time_z_score ⟨7/2, 2, 49/100, 0⟩ = 0 := by norm_num [time_z_score]
  have haz : agent_z_score ⟨7/2, 2, 49/100, 0⟩ = 5/8 := by
    norm_num [agent_z_score, abs]
  have hsc : anomalyScoresList ⟨7/2, 2, 49/100, 0⟩ = [51/100] := by
    simp only [anomalyScoresList, htz, haz]
    norm_num
  have hov : overallScore ⟨7/2, 2, 49/100, 0⟩ = 51/100 := by
    simp [overallScore, hsc]
  have hsev : (detect_anomalies ⟨7/2, 2, 49/100, 0⟩).severity = "High" := by
    simp only [detect_anomalies, severityOfScore, hov]
    norm_num
  refine ⟨by norm_num, ?_, hsev, by rw [hsev]; decide⟩
  have hlist : anomaliesList ⟨7/2, 2, 49/100, 0⟩ = [successEntry ⟨7/2, 2, 49/100, 0⟩] := by
    simp only [anomaliesList, htz, haz]
    norm_num
  simp [detect_anomalies, hlist]

/-- The top-level severity thresholds report "Critical" exactly when the
overall score exceeds 0.7. -/
lemma severityOfScore_critical_iff (s : ℚ) :
    severityOfScore s = "Critical" ↔ s > 7/10 := by
  unfold severityOfScore
  split_ifs with h1 h2 h3 <;> simp [h1]

/-- Claim C2, amended: whenever `success_rate < 0.7` the detector reports
`is_anomaly = true`, and whenever `success_rate < 0.5` the appended
Low-Success-Rate anomaly entry has severity "Critical"; the top-level
`severity` field is instead driven by the mean anomaly score and is
"Critical" exactly when that mean exceeds 0.7. -/
theorem C2_amended (i : AnomalyInput) :
    (i.success_rate < 7/10 → (detect_anomalies i).is_anomaly = true) ∧
    (i.success_rate < 1/2 →
      ({ type := "Low Success Rate", severity := "Critical", baseline := 23/25 }
        : AnomalyEntry) ∈ (detect_anomalies i).anomalies_detected) ∧
    (detect_anomalies i).severity = severityOfScore (overallScore i) ∧
    ((detect_anomalies i).severity = "Critical" ↔ overallScore i > 7/10) := by
  refine ⟨?_, ?_, rfl, severityOfScore_critical_iff (overallScore i)⟩
  · intro h
    have hmem : successEntry i ∈ anomaliesList i := by
      rw [mem_anomaliesList]
      exact Or.inr (Or.inr (Or.inl ⟨h, rfl⟩))
    simp only [detect_anomalies, decide_eq_true_eq]
    exact List.length_pos.mpr (fun he => by simp [he] at hmem)
  · intro h2
    have h : i.success_rate < 7/10 := lt_trans h2 (by norm_num)
    have hmem : successEntry i ∈ anomaliesList i := by
      rw [mem_anomaliesList]
      exact Or.inr (Or.inr (Or.inl ⟨h, rfl⟩))
    have hentry : successEntry i
        = { type := "Low Success Rate", severity := "Critical", baseline := 23/25 } := by
      unfold successEntry
      rw [if_pos h2]
    show _ ∈ anomaliesList i
    rw [← hentry]
    exact hmem

/-- Witness for C2 (amended) at success rate 0.4: the detector flags an
anomaly, the Low-Success-Rate entry is "Critical", and the top-level severity
is not "Critical" because the mean score there is 0.6 ≤ 0.7. -/
theorem C2_amended_witness :
    (detect_anomalies ⟨7/2, 2, 2/5, 0⟩).is_anomaly = true ∧
    ({ type := "Low Success Rate", severity := "Critical", baseline := 23/25 }
      : AnomalyEntry) ∈ (detect_anomalies ⟨7/2, 2, 2/5, 0⟩).anomalies_detected ∧
    (detect_anomalies ⟨7/2, 2, 2/5, 0⟩).severity ≠ "Critical" := by
  have h := C2_amended ⟨7/2, 2, 2/5, 0⟩
  have htz : time_z_score ⟨7/2, 2, 2/5, 0⟩ = 0 := by norm_num [time_z_score]
  have haz : agent_z_score ⟨7/2, 2, 2/5, 0⟩ = 5/8 := by
    norm_num [agent_z_score, abs]
  have hsc : anomalyScoresList ⟨7/2, 2, 2/5, 0⟩ = [3/5] := by
    simp only [anomalyScoresList, htz, haz]
    norm_num
  have hov : overallScore ⟨7/2, 2, 2/5, 0⟩ = 3/5 := by
    simp [overallScore, hsc]
  refine ⟨h.1 (by norm_num), h.2.1 (by norm_num), fun hc => ?_⟩
  have := h.2.2.2.mp hc
  rw [hov] at this
  norm_num at this

/-- Claim C6 as stated is false: at 6 agents (all other metrics at baseline)
the agent-count z-score is 4.375, beyond 3σ, yet the appended anomaly entry's
severity is the bottom tier "Low" — the agent-count dimension's severity does
not escalate at the 3σ threshold. -/
theorem C6_counterexample :
    agent_z_score ⟨7/2, 6, 9/10, 0⟩ > 3 ∧
    (detect_anomalies ⟨7/2, 6, 9/10, 0⟩).anomalies_detected
      = [{ type := "Unusual Agent Count", severity := "Low", baseline := 5/2 }] := by
  have htz : time_z_score ⟨7/2, 6, 9/10, 0⟩ = 0 := by norm_num [time_z_score]
  have haz : agent_z_score ⟨7/2, 6, 9/10, 0⟩ = 35/8 := by
    norm_num [agent_z_score, abs]
  constructor
  · rw [haz]; norm_num
  · simp only [detect_anomalies, anomaliesList, htz, haz, agentEntry]
    norm_num

/-- Claim C6, amended: the completion-time and agent-count dimensions are
triggered exactly when their z-scores against the fixed baselines exceed 2;
the completion-time entry's severity escalates from "Medium" to "High" at 3σ
while the agent-count entry's severity is always "Low"; and the returned
anomaly score is the (rounded) mean of the triggered dimensions'
contributions, 0.0 when none are triggered. -/
theorem C6_amended (i : AnomalyInput) :
    (time_z_score i > 2 → timeEntry i ∈ (detect_anomalies i).anomalies_detected) ∧
    (¬ time_z_score i > 2 →
      ∀ e ∈ (detect_anomalies i).anomalies_detected,
        e.type ≠ "Abnormal Completion Time") ∧
    (timeEntry i).severity = (if time_z_score i > 3 then "High" else "Medium") ∧
    (agent_z_score i > 2 → agentEntry ∈ (detect_anomalies i).anomalies_detected) ∧
    (¬ agent_z_score i > 2 →
      ∀ e ∈ (detect_anomalies i).anomalies_detected,
        e.type ≠ "Unusual Agent Count") ∧
    agentEntry.severity = "Low" ∧
    (anomalyScoresList i = [] → (detect_anomalies i).anomaly_score = 0) ∧
    (anomalyScoresList i ≠ [] →
      (detect_anomalies i).anomaly_score
        = roundTo 3 ((anomalyScoresList i).sum / (anomalyScoresList i).length)) := by
  have hround0 : roundTo 3 (0 : ℚ) = 0 := roundTo_fix (m := 0) (by norm_num)
  refine ⟨?_, ?_, rfl, ?_, ?_, rfl, ?_, ?_⟩
  · intro h
    show timeEntry i ∈ anomaliesList i
    exact (mem_anomaliesList i _).mpr (Or.inl ⟨h, rfl⟩)
  · intro h e he
    replace he : e ∈ anomaliesList i := he
    rw [mem_anomaliesList] at he
    rcases he with ⟨hc, rfl⟩ | ⟨_, rfl⟩ | ⟨_, rfl⟩ | ⟨_, rfl⟩
    · exact absurd hc h
    · simp [agentEntry]
    · simp [successEntry]
    · simp [errorEntry]
  · intro h
    show agentEntry ∈ anomaliesList i
    exact (mem_anomaliesList i _).mpr (Or.inr (Or.inl ⟨h, rfl⟩))
  · intro h e he
    replace he : e ∈ anomaliesList i := he
    rw [mem_anomaliesList] at he
    rcases he with ⟨_, rfl⟩ | ⟨hc, rfl⟩ | ⟨_, rfl⟩ | ⟨_, rfl⟩
    · simp [timeEntry]
    · exact absurd hc h
    · simp [successEntry]
    · simp [errorEntry]
  · intro he
    simp [detect_anomalies, overallScore, he, hround0]
  · intro hne
    simp [detect_anomalies, overallScore, hne]

/-- Witness for C6 (amended) at completion time 8h and 6 agents: both z-score
dimensions are triggered (the time entry severity having escalated to "High",
the agent entry stuck at "Low"), and the score is the rounded mean of the
contributions. -/
theorem C6_amended_witness :
    timeEntry ⟨8, 6, 9/10, 0⟩ ∈ (detect_anomalies ⟨8, 6, 9/10, 0⟩).anomalies_detected ∧
    agentEntry ∈ (detect_anomalies ⟨8, 6, 9/10, 0⟩).anomalies_detected ∧
    (timeEntry ⟨8, 6, 9/10, 0⟩).severity = "High" ∧
    (detect_anomalies ⟨8, 6, 9/10, 0⟩).anomaly_score
      = roundTo 3 ((anomalyScoresList ⟨8, 6, 9/10, 0⟩).sum
          / (anomalyScoresList ⟨8, 6, 9/10, 0⟩).length) := by
  have htz : time_z_score ⟨8, 6, 9/10, 0⟩ = 15/4 := by
    norm_num [time_z_score, abs]
  have haz : agent_z_score ⟨8, 6, 9/10, 0⟩ = 35/8 := by
    norm_num [agent_z_score, abs]
  have h := C6_amended ⟨8, 6, 9/10, 0⟩
  have hsev : (timeEntry ⟨8, 6, 9/10, 0⟩).severity = "High" := by
    rw [h.2.2.1, htz]
    norm_num
  have hne : anomalyScoresList ⟨8, 6, 9/10, 0⟩ ≠ [] := by
    simp only [anomalyScoresList, htz, haz]
    norm_num
    exact List.cons_ne_nil _ _
  exact ⟨h.1 (by rw [htz]; norm_num), h.2.2.2.1 (by rw [haz]; norm_num), hsev,
    h.2.2.2.2.2.2.2 hne⟩

/-- Every contribution appended to the detector's score list lies in `[0, 1]`,
given the endpoint-validated bounds on the success rate. -/
lemma anomalyScores_mem_unit (i : AnomalyInput) (h1 : 0 ≤ i.success_rate)
    (h2 : i.success_rate ≤ 1) : ∀ x ∈ anomalyScoresList i, 0 ≤ x ∧ x ≤ 1 := by
  intro x hx
  unfold anomalyScoresList at hx
  simp only [List.mem_append] at hx
  rcases hx with ((hx | hx) | hx) | hx
  · by_cases hc : time_z_score i > 2
    · rw [if_pos hc] at hx
      simp only [List.mem_singleton] at hx
      subst hx
      exact ⟨le_min (div_nonneg (abs_nonneg _) (by norm_num)) zero_le_one,
        min_le_right _ _⟩
    · rw [if_neg hc] at hx
      simp at hx
  · by_cases hc : agent_z_score i > 2
    · rw [if_pos hc] at hx
      simp only [List.mem_singleton] at hx
      subst hx
      refine ⟨le_min (div_nonneg (abs_nonneg _) (by norm_num)) (by norm_num), ?_⟩
      exact (min_le_right _ _).trans (by norm_num)
    · rw [if_neg hc] at hx
      simp at hx
  · by_cases hc : i.success_rate < 7/10
    · rw [if_pos hc] at hx
      simp only [List.mem_singleton] at hx
      subst hx
      exact ⟨by linarith, by linarith⟩
    · rw [if_neg hc] at hx
      simp at hx
  · by_cases hc : i.error_count > 5
    · rw [if_pos hc] at hx
      simp only [List.mem_singleton] at hx
      subst hx
      refine ⟨le_min (div_nonneg (by linarith) (by norm_num)) zero_le_one,
        min_le_right _ _⟩
    · rw [if_neg hc] at hx
      simp at hx

/-- Claim C8: under the prediction endpoint's validated preconditions
(`success_rate ∈ [0, 1]`, `error_count ≥ 0`) the returned anomaly score lies
in `[0, 1]`, and is exactly 0 when no dimension is triggered. -/
theorem C8_anomaly_score_in_unit (i : AnomalyInput) (h1 : 0 ≤ i.success_rate)
    (h2 : i.success_rate ≤ 1) (h3 : 0 ≤ i.error_count) :
    0 ≤ (detect_anomalies i).anomaly_score ∧
    (detect_anomalies i).anomaly_score ≤ 1 ∧
    (anomalyScoresList i = [] → (detect_anomalies i).anomaly_score = 0) := by
  have hb := anomalyScores_mem_unit i h1 h2
  have h0 : roundTo 3 (0 : ℚ) = 0 := roundTo_fix (m := 0) (by norm_num)
  have hfix1 : roundTo 3 (1 : ℚ) = 1 := roundTo_fix (m := 1000) (by norm_num)
  have hov0 : 0 ≤ overallScore i := by
    unfold overallScore
    split
    · norm_num
    · exact list_mean_nonneg (fun x hx => (hb x hx).1)
  have hov1 : overallScore i ≤ 1 := by
    unfold overallScore
    split
    · norm_num
    · rename_i hne
      exact list_mean_le hne (fun x hx => (hb x hx).2)
  refine ⟨?_, ?_, ?_⟩
  · simpa [detect_anomalies] using le_roundTo_of_le h0 hov0
  · simpa [detect_anomalies] using roundTo_le_of_le hfix1 hov1
  · intro he
    simp [detect_anomalies, overallScore, he, h0]

/-- Witness for C8 at a heavily anomalous input (10h, 6 agents, success 0.5,
20 errors): the returned score is still inside `[0, 1]`. -/
theorem C8_anomaly_score_in_unit_witness :
    0 ≤ (detect_anomalies ⟨10, 6, 1/2, 20⟩).anomaly_score ∧
    (detect_anomalies ⟨10, 6, 1/2, 20⟩).anomaly_score ≤ 1 := by
  have h := C8_anomaly_score_in_unit ⟨10, 6, 1/2, 20⟩ (by norm_num) (by norm_num)
    (by norm_num)
  exact ⟨h.1, h.2.1⟩

/-- Claim C1 as stated is false on the heuristic fallback path: the valid
prediction request with empty description, 1 agent, 1 step and historical
average 0 yields `predicted_hours = 0.38 < 0.5` — the `max(0.5, ·)` clamp is
applied only on the trained-model path and to the reported range minimum, not
to the heuristic path's `predicted_hours`. -/
theorem C1_counterexample :
    1 ≤ (1 : ℕ) ∧ 1 ≤ (1 : ℕ) ∧ (0 : ℚ) ≤ 0 ∧
    (predict_completion_time_heuristic "" 1 1 0).predicted_hours = 19/50 ∧
    (predict_completion_time_heuristic "" 1 1 0).predicted_hours < 1/2 := by
  have hC : calculateComplexity "" 1 = 1/20 := by
    have hw : wordCount "" = 0 := by decide
    have hk : keywordCount "" = 0 := by decide
    unfold calculateComplexity
    rw [hw, hk]
    norm_num
  have hfix : roundTo 2 ((19 : ℚ)/50) = 19/50 := roundTo_fix (m := 38) (by norm_num)
  have hph : (predict_completion_time_heuristic "" 1 1 0).predicted_hours = 19/50 := by
    simp only [predict_completion_time_heuristic, hC]
    norm_num
    exact hfix
  exact ⟨le_refl 1, le_refl 1, le_refl 0, hph, by rw [hph]; norm_num⟩

/-- The `[0.1, 0.99]` clip of the success-probability paths. -/
lemma clampProb_mem (p : ℚ) : 1/10 ≤ clampProb p ∧ clampProb p ≤ 99/100 :=
  ⟨le_max_left _ _, max_le (by norm_num) (min_le_right _ _)⟩

/-- Claim C1, amended: `predicted_hours ≥ 0.5` holds on the trained-model path
(for any regressor outputs), and on the heuristic fallback path only the
reported range minimum is clamped at 0.5; `success_probability` lies within
`[0.1, 0.99]` on both the trained-classifier and the heuristic paths, for
every valid input. -/
theorem C1_amended (rf_pred gb_pred ha₁ proba : ℚ) (description : String)
    (agent_count step_count : ℕ) (ha₂ : ℚ) (confidence_scores : List ℚ)
    (workflow_age_days : ℕ) (agent_perf : ℚ) :
    1/2 ≤ (predict_completion_time_trained rf_pred gb_pred ha₁).predicted_hours ∧
    1/2 ≤ (predict_completion_time_trained rf_pred gb_pred ha₁).range_min ∧
    1/2 ≤ (predict_completion_time_heuristic description agent_count step_count
        ha₂).range_min ∧
    1/10 ≤ predict_success_probability_trained proba ∧
    predict_success_probability_trained proba ≤ 99/100 ∧
    1/10 ≤ predict_success_probability_heuristic description step_count
        confidence_scores workflow_age_days agent_perf ∧
    predict_success_probability_heuristic description step_count
        confidence_scores workflow_age_days agent_perf ≤ 99/100 := by
  have hfix2 : roundTo 2 ((1 : ℚ)/2) = 1/2 := roundTo_fix (m := 50) (by norm_num)
  have hfix10 : roundTo 3 ((1 : ℚ)/10) = 1/10 := roundTo_fix (m := 100) (by norm_num)
  have hfix99 : roundTo 3 ((99 : ℚ)/100) = 99/100 := roundTo_fix (m := 990) (by norm_num)
  refine ⟨?_, ?_, ?_, ?_, ?_, ?_, ?_⟩
  · exact le_roundTo_of_le hfix2 (le_max_left _ _)
  · exact le_roundTo_of_le hfix2 (le_max_right _ _)
  · exact le_roundTo_of_le hfix2 (le_max_right _ _)
  · exact le_roundTo_of_le hfix10 (clampProb_mem proba).1
  · exact roundTo_le_of_le hfix99 (clampProb_mem proba).2
  · exact le_roundTo_of_le hfix10 (clampProb_mem _).1
  · exact roundTo_le_of_le hfix99 (clampProb_mem _).2

end Cognifloe
